import Mathlib

/-!
Shallow embedding of tasklib's lazy module (src/tasklib/lazy.py), which
provides `LazyUUIDTask` (a lazy wrapper around a Task referenced by UUID)
and `LazyUUIDTaskSet` (a lazy wrapper around a TaskQuerySet, for tasks
referenced by UUID).  Stateful Python code is embedded as explicit state
passing; every operation additionally returns the list of backend calls
(`tw.tasks.get` / `tw.tasks.filter`) it performed, so that "no backend
call" properties can be stated.  Python exceptions are embedded with
`Except`/`Option` error values named after the spec's error taxonomy.
-/

namespace Tasklib

/-- Errors raised by the embedded code, named after the spec's error
taxonomy (`NotFound` embeds the `KeyError` of `set.remove` on an absent
element, `EmptyCollection` the `KeyError` of `set.pop` on an empty set;
`keyError` is a dictionary-style `KeyError` from an item lookup). -/
inductive PyErr where
  | keyError
  | typeError
  | attributeError
  | notFound
  | emptyCollection
deriving DecidableEq, Repr

/-- A materialized Task record, as the lazy module sees it: a field
dictionary served by item lookup (`t[key]`), and the four attributes the
defensive accessors read with `getattr(..., default)` — each `Option`
because a materialized record shape need not carry every property. -/
structure TaskRecord where
  fields : List (String × String)
  completed : Option Bool
  modified : Option Bool
  saved : Option Bool
  modifiedFields : Option (List String)
deriving DecidableEq, Repr

/-- A materialized TaskQuerySet, opaque to the lazy module beyond being
the object that replaces a `LazyUUIDTaskSet` on refresh. -/
structure TaskQuerySet where
  tasks : List TaskRecord
deriving DecidableEq, Repr

/-- The backend handle `tw.tasks`: `get(uuid=...)` fetches one record
(`none` embeds the `NotFound` failure) and `filter(query)` fetches a
query set. -/
structure Store where
  get : String → Option TaskRecord
  filter : String → TaskQuerySet

/-- One backend round trip, recorded in the call log of each operation. -/
inductive BackendCall where
  | get (uuid : String)
  | filter (query : String)
deriving DecidableEq, Repr

/-- `LazyUUIDTask.__init__`: stores the uuid and sets `content = None`;
`content` becomes `some r` once materialized. -/
structure LazyUUIDTask where
  uuid : String
  content : Option TaskRecord
deriving DecidableEq, Repr

/-- `LazyUUIDTask(tw, uuid)`: fresh lazy reference, `content = None`. -/
def LazyUUIDTask.new (uuid : String) : LazyUUIDTask :=
  ⟨uuid, none⟩

/-- `LazyUUIDTask.refresh`: `self.content = self._tw.tasks.get(uuid=self.uuid)`.
A failing fetch (`NotFound`) propagates; the call log records the fetch. -/
def LazyUUIDTask.refresh (store : Store) (t : LazyUUIDTask) :
    Except PyErr LazyUUIDTask × List BackendCall :=
  match store.get t.uuid with
  | some r => (Except.ok { t with content := some r }, [BackendCall.get t.uuid])
  | none => (Except.error PyErr.notFound, [BackendCall.get t.uuid])

/-- `LazyUUIDTask.__getitem__`: `'uuid'` is answered from the stored
identifier with no backend call; any other key first refreshes and then
looks the key up in the fetched record's fields (`KeyError` if absent). -/
def LazyUUIDTask.getitem (store : Store) (t : LazyUUIDTask) (key : String) :
    Except PyErr String × LazyUUIDTask × List BackendCall :=
  if key = "uuid" then
    (Except.ok t.uuid, t, [])
  else
    match t.refresh store with
    | (Except.ok t2, log) =>
        match t2.content with
        | some r =>
            match r.fields.lookup key with
            | some v => (Except.ok v, t2, log)
            | none => (Except.error PyErr.keyError, t2, log)
        | none => (Except.error PyErr.typeError, t2, log)
    | (Except.error e, log) => (Except.error e, t, log)

/-- `getattr(content, name, default)` where `content : Option TaskRecord`
(Python `None` lacks the attribute, so `none` also yields the default). -/
def getattrD {α : Type} (c : Option TaskRecord) (f : TaskRecord → Option α)
    (d : α) : α :=
  match c with
  | some r => (f r).getD d
  | none => d

/-- `LazyUUIDTask.completed` property: `self.refresh()` then
`getattr(self.content, 'completed', False)`. -/
def LazyUUIDTask.completed (store : Store) (t : LazyUUIDTask) :
    Except PyErr Bool × LazyUUIDTask × List BackendCall :=
  match t.refresh store with
  | (Except.ok t2, log) => (Except.ok (getattrD t2.content TaskRecord.completed false), t2, log)
  | (Except.error e, log) => (Except.error e, t, log)

/-- `LazyUUIDTask.modified` property: `self.refresh()` then
`getattr(self.content, 'modified', False)`. -/
def LazyUUIDTask.modified (store : Store) (t : LazyUUIDTask) :
    Except PyErr Bool × LazyUUIDTask × List BackendCall :=
  match t.refresh store with
  | (Except.ok t2, log) => (Except.ok (getattrD t2.content TaskRecord.modified false), t2, log)
  | (Except.error e, log) => (Except.error e, t, log)

/-- `LazyUUIDTask.saved` property: `self.refresh()` then
`getattr(self.content, 'saved', True)`. -/
def LazyUUIDTask.saved (store : Store) (t : LazyUUIDTask) :
    Except PyErr Bool × LazyUUIDTask × List BackendCall :=
  match t.refresh store with
  | (Except.ok t2, log) => (Except.ok (getattrD t2.content TaskRecord.saved true), t2, log)
  | (Except.error e, log) => (Except.error e, t, log)

/-- `LazyUUIDTask._modified_fields` property: the source reads
`getattr(self.content, '_modified_fields', set())` directly, with no
`self.refresh()` call before it — unlike the other three accessors. -/
def LazyUUIDTask.modified_fields (t : LazyUUIDTask) :
    List String × LazyUUIDTask × List BackendCall :=
  (getattrD t.content TaskRecord.modifiedFields [], t, [])

/-- `LazyUUIDTask.__hash__`: `hash(self.uuid)`, for the host hash
function `h`. -/
def LazyUUIDTask.hashU (h : String → Nat) (t : LazyUUIDTask) : Nat :=
  h t.uuid

/-- An arbitrary comparison operand: all the lazy module ever does with
it is item lookup (`other['uuid']`), which may fail with any error. -/
structure PyObj where
  getitem : String → Except PyErr String

/-- `LazyUUIDTask.__eq__`: `self['uuid'] == other['uuid']` inside
`try ... except KeyError: return False`.  `self['uuid']` never raises;
a `KeyError` from the operand yields `False`, while every other error
(e.g. `TypeError` from an unsubscriptable operand) propagates. -/
def LazyUUIDTask.eqObj (t : LazyUUIDTask) (other : PyObj) : Except PyErr Bool :=
  match other.getitem "uuid" with
  | Except.ok u => Except.ok (t.uuid == u)
  | Except.error PyErr.keyError => Except.ok false
  | Except.error e => Except.error e

/-- A `LazyUUIDTask` viewed as a comparison operand: its item lookup is
`LazyUUIDTask.getitem` (the result value; lookups of `'uuid'` perform no
backend call, see `getitem`). -/
def LazyUUIDTask.asObj (store : Store) (t : LazyUUIDTask) : PyObj :=
  ⟨fun k => (t.getitem store k).1⟩

/-- A record-like value in an iterable operand of the set operations:
all the code extracts from it is `t['uuid']`, here the `uuid` field. -/
structure RecordLike where
  uuid : String
deriving DecidableEq, Repr

/-- `set(t['uuid'] for t in other)` over an iterable of record-like
values. -/
def idsOf (other : List RecordLike) : Finset String :=
  (other.map RecordLike.uuid).toFinset

/-- `LazyUUIDTaskSet` in its lazy state: `self._uuids`, a Python set of
uuids (unordered, no duplicates). -/
structure LazyUUIDTaskSet where
  uuids : Finset String
deriving DecidableEq

/-- `LazyUUIDTaskSet.__init__`: `self._uuids = set(uuids)` from an
iterable of identifiers, deduplicating. -/
def LazyUUIDTaskSet.ofList (l : List String) : LazyUUIDTaskSet :=
  ⟨l.toFinset⟩

/-- `LazyUUIDTaskSet.__len__`: `len(self._uuids)`. -/
def LazyUUIDTaskSet.len (s : LazyUUIDTaskSet) : Nat :=
  s.uuids.card

/-- `LazyUUIDTaskSet.__contains__`: `task['uuid'] in self._uuids`. -/
def LazyUUIDTaskSet.containsTask (s : LazyUUIDTaskSet) (t : RecordLike) : Bool :=
  decide (t.uuid ∈ s.uuids)

/-- `LazyUUIDTaskSet.__iter__`: yields a fresh, unmaterialized
`LazyUUIDTask` per stored uuid.  The Python set's iteration order is
unspecified; the embedding enumerates the identifiers in sorted order. -/
def LazyUUIDTaskSet.iter (s : LazyUUIDTaskSet) : List LazyUUIDTask :=
  (s.uuids.sort (· ≤ ·)).map LazyUUIDTask.new

/-- `LazyUUIDTaskSet.union`: a new set over
`self._uuids | set(t['uuid'] for t in other)`; no backend call. -/
def LazyUUIDTaskSet.union (s : LazyUUIDTaskSet) (other : List RecordLike) :
    LazyUUIDTaskSet × List BackendCall :=
  (⟨s.uuids ∪ idsOf other⟩, [])

/-- `LazyUUIDTaskSet.intersection`: a new set over
`self._uuids & set(t['uuid'] for t in other)`; no backend call. -/
def LazyUUIDTaskSet.intersection (s : LazyUUIDTaskSet) (other : List RecordLike) :
    LazyUUIDTaskSet × List BackendCall :=
  (⟨s.uuids ∩ idsOf other⟩, [])

/-- `LazyUUIDTaskSet.difference`: a new set over
`self._uuids - set(t['uuid'] for t in other)`; no backend call. -/
def LazyUUIDTaskSet.difference (s : LazyUUIDTaskSet) (other : List RecordLike) :
    LazyUUIDTaskSet × List BackendCall :=
  (⟨s.uuids \ idsOf other⟩, [])

/-- `LazyUUIDTaskSet.symmetric_difference`: a new set over
`self._uuids ^ set(t['uuid'] for t in other)` (elements in exactly one
side); no backend call. -/
def LazyUUIDTaskSet.symmetric_difference (s : LazyUUIDTaskSet) (other : List RecordLike) :
    LazyUUIDTaskSet × List BackendCall :=
  (⟨(s.uuids \ idsOf other) ∪ (idsOf other \ s.uuids)⟩, [])

/-- `LazyUUIDTaskSet.__rsub__`: a new set over
`set(t['uuid'] for t in other) - self._uuids` (the reversed operand
order); no backend call. -/
def LazyUUIDTaskSet.rsub (s : LazyUUIDTaskSet) (other : List RecordLike) :
    LazyUUIDTaskSet × List BackendCall :=
  (⟨idsOf other \ s.uuids⟩, [])

/-- `set(t['uuid'] for t in other)` when each element's item lookup may
fail: the first failure propagates, as in the Python generator. -/
def extractUuids (other : List PyObj) : Except PyErr (List String) :=
  other.mapM (fun t => t.getitem "uuid")

/-- `LazyUUIDTaskSet.__eq__`:
`set(t['uuid'] for t in other) == self._uuids`, with no `try` around the
extraction — any failure while extracting the operand's identifiers
propagates. -/
def LazyUUIDTaskSet.eqIter (s : LazyUUIDTaskSet) (other : List PyObj) :
    Except PyErr Bool :=
  (extractUuids other).map (fun l => decide (l.toFinset = s.uuids))

/-- `LazyUUIDTaskSet.add`: `self._uuids.add(task['uuid'])`. -/
def LazyUUIDTaskSet.add (s : LazyUUIDTaskSet) (t : RecordLike) :
    LazyUUIDTaskSet × List BackendCall :=
  (⟨insert t.uuid s.uuids⟩, [])

/-- `LazyUUIDTaskSet.remove`: `self._uuids.remove(task['uuid'])` —
raises (spec taxonomy: `NotFound`, Python: `KeyError`) when the uuid is
absent, leaving the set unchanged; otherwise deletes it from the
identifier set.  No backend call either way. -/
def LazyUUIDTaskSet.remove (s : LazyUUIDTaskSet) (t : RecordLike) :
    LazyUUIDTaskSet × Option PyErr × List BackendCall :=
  if t.uuid ∈ s.uuids then (⟨s.uuids.erase t.uuid⟩, none, [])
  else (s, some PyErr.notFound, [])

/-- `LazyUUIDTaskSet.pop`: `self._uuids.pop()` — raises (spec taxonomy:
`EmptyCollection`, Python: `KeyError`) on an empty set, leaving it
unchanged; otherwise removes and returns an arbitrary uuid (the
embedding picks the minimum).  No backend call either way. -/
def LazyUUIDTaskSet.pop (s : LazyUUIDTaskSet) :
    Option String × LazyUUIDTaskSet × Option PyErr × List BackendCall :=
  if h : s.uuids.Nonempty then
    (some (s.uuids.min' h), ⟨s.uuids.erase (s.uuids.min' h)⟩, none, [])
  else
    (none, s, some PyErr.emptyCollection, [])

/-- `LazyUUIDTaskSet.clear`: `self._uuids.clear()`. -/
def LazyUUIDTaskSet.clear (_s : LazyUUIDTaskSet) :
    LazyUUIDTaskSet × List BackendCall :=
  (⟨∅⟩, [])

/-- Python's `s.startswith(pre)`: the first characters of `s` are
exactly `pre`. -/
def pyStarts (s pre : String) : Bool :=
  decide (s.data.take pre.data.length = pre.data)

/-- Python's `s.endswith(suf)`: the last characters of `s` are exactly
`suf`. -/
def pyEnds (s suf : String) : Bool :=
  decide (s.data.reverse.take suf.data.length = suf.data.reverse)

/-- `' '.join(self._uuids)`: the stored identifiers joined by a single
space.  The Python set's enumeration order is unspecified; the embedding
joins them in sorted order. -/
def joinQuery (u : Finset String) : String :=
  String.intercalate " " (u.sort (· ≤ ·))

/-- `LazyUUIDTaskSet.refresh`: executes
`self._tw.tasks.filter(' '.join(self._uuids))` — a single `filter`
call — and returns the replacement query set (the source then swaps
`self.__class__` and `self.__dict__` to it). -/
def LazyUUIDTaskSet.refresh (store : Store) (s : LazyUUIDTaskSet) :
    TaskQuerySet × List BackendCall :=
  (store.filter (joinQuery s.uuids), [BackendCall.filter (joinQuery s.uuids)])

/-- The facade state of a `LazyUUIDTaskSet` object: still lazy, or
already replaced in place by the materialized `TaskQuerySet`. -/
inductive SetState where
  | lazySet (s : LazyUUIDTaskSet)
  | materialized (qs : TaskQuerySet)
deriving DecidableEq

/-- Outcome of a `__getattr__` fallback lookup: a clean
`AttributeError`, or delegation of the lookup to the query set that
materialization produced. -/
inductive AttrResult where
  | attributeError
  | delegated (qs : TaskQuerySet)
deriving DecidableEq

/-- `LazyUUIDTaskSet.__getattr__` (called only when normal lookup
fails): a name starting with a double underscore raises
`AttributeError` without touching the state or the backend; any other
name triggers `self.refresh()` (class/dict swap to the filtered query
set) and re-resolves the attribute on the materialized object. -/
def LazyUUIDTaskSet.getattrMissing (store : Store) (s : LazyUUIDTaskSet)
    (name : String) : AttrResult × SetState × List BackendCall :=
  if pyStarts name "__" then
    (AttrResult.attributeError, SetState.lazySet s, [])
  else
    match s.refresh store with
    | (qs, log) => (AttrResult.delegated qs, SetState.materialized qs, log)

/-! Concrete fixtures used by witnesses and counterexamples. -/

/-- Example materialized record: carries `completed` and
`_modified_fields`, lacks `modified` and `saved`. -/
def exRecord : TaskRecord :=
  ⟨[("description", "write docs")], some true, none, none, some ["description"]⟩

/-- Example backend: uuid `u1` resolves to `exRecord`, everything else
is `NotFound`; `filter` returns a query set remembering its query. -/
def exStore : Store :=
  ⟨fun u => if u = "u1" then some exRecord else none,
   fun q => ⟨[⟨[("query", q)], none, none, none, none⟩]⟩⟩

/-- Operand whose item lookup raises `TypeError` (e.g. an integer:
unsubscriptable). -/
def badObjT : PyObj :=
  ⟨fun _ => Except.error PyErr.typeError⟩

/-- Operand whose item lookup raises `KeyError` (e.g. a dict without
the key). -/
def badObjK : PyObj :=
  ⟨fun _ => Except.error PyErr.keyError⟩

/-- C1 counterexample: the task `u1` is lazy (`content = None`) and its
backend record carries `_modified_fields = {"description"}`, yet the
`_modified_fields` accessor performs no backend call, leaves the task
unmaterialized and returns the empty-set default — so it does not
"first force materialization and then read the property from the
materialized record" as the claim states for all four accessors. -/
theorem claim_C1_counterexample :
    LazyUUIDTask.modified_fields (LazyUUIDTask.new "u1")
      = ([], LazyUUIDTask.new "u1", [])
    ∧ (exStore.get "u1").bind TaskRecord.modifiedFields = some ["description"] :=
  ⟨rfl, rfl⟩

/-- C1 amended: `completed`, `modified` and `saved` each force
materialization (one `Store.get` fetch via `refresh`) and then read the
corresponding property from the materialized record with defaults
false/false/true; `_modified_fields` does not force materialization: it
reads `_modified_fields` off the current content with the empty-set
default (so a still-lazy task always gets the empty set), issuing no
backend call. -/
theorem claim_C1_amended (store : Store) (t : LazyUUIDTask) (r : TaskRecord)
    (h : store.get t.uuid = some r) :
    t.completed store
      = (Except.ok (r.completed.getD false), { t with content := some r },
         [BackendCall.get t.uuid])
    ∧ t.modified store
      = (Except.ok (r.modified.getD false), { t with content := some r },
         [BackendCall.get t.uuid])
    ∧ t.saved store
      = (Except.ok (r.saved.getD true), { t with content := some r },
         [BackendCall.get t.uuid])
    ∧ t.modified_fields
      = (getattrD t.content TaskRecord.modifiedFields [], t, []) := by
  refine ⟨?_, ?_, ?_, rfl⟩ <;>
    simp [LazyUUIDTask.completed, LazyUUIDTask.modified, LazyUUIDTask.saved,
      LazyUUIDTask.refresh, h, getattrD]

/-- C1 witness: on the concrete backend, the `completed` accessor of the
lazy task `u1` fetches once and returns the record's `completed`. -/
theorem claim_C1_witness :
    LazyUUIDTask.completed exStore (LazyUUIDTask.new "u1")
      = (Except.ok true, ⟨"u1", some exRecord⟩, [BackendCall.get "u1"]) := by
  have h := (claim_C1_amended exStore (LazyUUIDTask.new "u1") exRecord rfl).1
  rw [h]; rfl

/-- C2 counterexample: a `TypeError` while extracting the operand's
identifier propagates out of `LazyUUIDTask.__eq__` (only `KeyError` is
caught), and even a `KeyError` propagates out of
`LazyUUIDTaskSet.__eq__` — equality can raise, contradicting the claim
that any failure to extract an identifier yields `false`. -/
theorem claim_C2_counterexample :
    LazyUUIDTask.eqObj (LazyUUIDTask.new "u1") badObjT
      = Except.error PyErr.typeError
    ∧ LazyUUIDTaskSet.eqIter (LazyUUIDTaskSet.ofList ["u1"]) [badObjK]
      = Except.error PyErr.keyError :=
  ⟨rfl, rfl⟩

/-- C2 amended: `LazyUUIDTask.__eq__` returns false when the operand's
identifier lookup fails with `KeyError`, and propagates any other
extraction error; `LazyUUIDTaskSet.__eq__` propagates every identifier
extraction failure unchanged. -/
theorem claim_C2_amended (t : LazyUUIDTask) (other : PyObj)
    (s : LazyUUIDTaskSet) (others : List PyObj) (e : PyErr) :
    (other.getitem "uuid" = Except.error PyErr.keyError →
      t.eqObj other = Except.ok false)
    ∧ (e ≠ PyErr.keyError → other.getitem "uuid" = Except.error e →
      t.eqObj other = Except.error e)
    ∧ (extractUuids others = Except.error e →
      s.eqIter others = Except.error e) := by
  refine ⟨fun h => ?_, fun hne h => ?_, fun h => ?_⟩
  · simp [LazyUUIDTask.eqObj, h]
  · cases e <;> simp_all [LazyUUIDTask.eqObj]
  · simp [LazyUUIDTaskSet.eqIter, h, Except.map]

/-- C2 witness: on concrete operands, a `KeyError` operand compares
unequal without raising, while a `TypeError` operand propagates out of
both equality operations. -/
theorem claim_C2_witness :
    LazyUUIDTask.eqObj (LazyUUIDTask.new "u1") badObjK = Except.ok false
    ∧ LazyUUIDTask.eqObj (LazyUUIDTask.new "u1") badObjT
      = Except.error PyErr.typeError
    ∧ LazyUUIDTaskSet.eqIter (LazyUUIDTaskSet.ofList ["u1"]) [badObjT]
      = Except.error PyErr.typeError :=
  ⟨(claim_C2_amended (LazyUUIDTask.new "u1") badObjK
      (LazyUUIDTaskSet.ofList ["u1"]) [badObjK] PyErr.keyError).1 rfl,
   (claim_C2_amended (LazyUUIDTask.new "u1") badObjT
      (LazyUUIDTaskSet.ofList ["u1"]) [badObjT] PyErr.typeError).2.1
      (by decide) rfl,
   (claim_C2_amended (LazyUUIDTask.new "u1") badObjT
      (LazyUUIDTaskSet.ofList ["u1"]) [badObjT] PyErr.typeError).2.2 rfl⟩

/-- C3: on a lazy `LazyUUIDTaskSet`, a fallback lookup of any
non-double-underscore name performs exactly one `Store.filter` call
whose query is the stored identifiers joined by single spaces (an
enumeration, without duplicates, of exactly the stored identifier set),
and the object's state becomes the returned materialized query set, to
which the lookup is delegated. -/
theorem claim_C3 (store : Store) (s : LazyUUIDTaskSet) (name : String)
    (h : pyStarts name "__" = false) :
    s.getattrMissing store name
      = (AttrResult.delegated (store.filter (joinQuery s.uuids)),
         SetState.materialized (store.filter (joinQuery s.uuids)),
         [BackendCall.filter (joinQuery s.uuids)])
    ∧ ∃ l : List String, l.Nodup ∧ l.toFinset = s.uuids
        ∧ joinQuery s.uuids = String.intercalate " " l := by
  constructor
  · simp [LazyUUIDTaskSet.getattrMissing, h, LazyUUIDTaskSet.refresh]
  · exact ⟨s.uuids.sort (· ≤ ·), Finset.sort_nodup _ _,
      Finset.sort_toFinset _ _, rfl⟩

/-- C3 witness: looking up `filter_all` on the lazy set `{u1}` issues
the single backend call `filter "u1"` and leaves the object
materialized as its result. -/
theorem claim_C3_witness :
    (LazyUUIDTaskSet.ofList ["u1"]).getattrMissing exStore "filter_all"
      = (AttrResult.delegated (exStore.filter "u1"),
         SetState.materialized (exStore.filter "u1"),
         [BackendCall.filter "u1"]) := by
  have h := (claim_C3 exStore (LazyUUIDTaskSet.ofList ["u1"])
    "filter_all" (by decide)).1
  have h1 : (LazyUUIDTaskSet.ofList ["u1"]).uuids = ({"u1"} : Finset String) := by
    decide
  have hq : joinQuery (LazyUUIDTaskSet.ofList ["u1"]).uuids = "u1" := by
    simp only [joinQuery, h1, Finset.sort_singleton]
    rfl
  rw [h, hq]

/-- C4: on a lazy `LazyUUIDTaskSet`, a fallback lookup of a dunder name
(double underscores at both ends, as in protocol probing) raises
`AttributeError` without materializing: the state is unchanged and no
backend call is issued. -/
theorem claim_C4 (store : Store) (s : LazyUUIDTaskSet) (name : String)
    (h : pyStarts name "__" = true) (_h2 : pyEnds name "__" = true) :
    s.getattrMissing store name
      = (AttrResult.attributeError, SetState.lazySet s, []) := by
  simp [LazyUUIDTaskSet.getattrMissing, h]

/-- C4 witness: probing `__deepcopy__` on the lazy set `{u1}` fails
with `AttributeError`, stays lazy and issues no backend call. -/
theorem claim_C4_witness :
    (LazyUUIDTaskSet.ofList ["u1"]).getattrMissing exStore "__deepcopy__"
      = (AttrResult.attributeError,
         SetState.lazySet (LazyUUIDTaskSet.ofList ["u1"]), []) :=
  claim_C4 exStore (LazyUUIDTaskSet.ofList ["u1"]) "__deepcopy__"
    (by decide) (by decide)

/-- A lazy set used as the right-hand operand of another set's
operation: iterating it yields one `LazyUUIDTask` per stored uuid, and
each element's `['uuid']` lookup extracts that uuid. -/
def LazyUUIDTaskSet.asOperand (s : LazyUUIDTaskSet) : List RecordLike :=
  s.iter.map (fun t => ⟨t.uuid⟩)

/-- Extracting the identifiers of a lazy set used as an operand gives
back exactly its identifier set. -/
theorem idsOf_asOperand (s : LazyUUIDTaskSet) : idsOf s.asOperand = s.uuids := by
  unfold idsOf LazyUUIDTaskSet.asOperand LazyUUIDTaskSet.iter
  rw [List.map_map, List.map_map]
  have h : ((RecordLike.uuid ∘ fun t : LazyUUIDTask => RecordLike.mk t.uuid)
      ∘ LazyUUIDTask.new) = id := rfl
  rw [h, List.map_id]
  exact Finset.sort_toFinset (fun a b : String => a ≤ b) s.uuids

/-- C5: between lazy sets, `union`, `intersection`, `difference` and
`symmetric_difference` compute exactly the mathematical operations on
the identifier sets, each returning a new lazy set and issuing no
backend call. -/
theorem claim_C5 (A B : LazyUUIDTaskSet) :
    A.union B.asOperand = (⟨A.uuids ∪ B.uuids⟩, [])
    ∧ A.intersection B.asOperand = (⟨A.uuids ∩ B.uuids⟩, [])
    ∧ A.difference B.asOperand = (⟨A.uuids \ B.uuids⟩, [])
    ∧ A.symmetric_difference B.asOperand = (⟨symmDiff A.uuids B.uuids⟩, []) := by
  refine ⟨?_, ?_, ?_, ?_⟩ <;>
    simp [LazyUUIDTaskSet.union, LazyUUIDTaskSet.intersection,
      LazyUUIDTaskSet.difference, LazyUUIDTaskSet.symmetric_difference,
      idsOf_asOperand, symmDiff_def, Finset.sup_eq_union]

/-- C5 witness: with `A = {u1, u2}` and `B = {u2, u3}`, the four
operations give `{u1,u2,u3}`, `{u2}`, `{u1}` and `{u1,u3}`, all without
backend calls. -/
theorem claim_C5_witness :
    ((LazyUUIDTaskSet.ofList ["u1", "u2"]).union
        (LazyUUIDTaskSet.ofList ["u2", "u3"]).asOperand).1.uuids
      = ["u1", "u2", "u3"].toFinset
    ∧ ((LazyUUIDTaskSet.ofList ["u1", "u2"]).intersection
        (LazyUUIDTaskSet.ofList ["u2", "u3"]).asOperand).1.uuids
      = ["u2"].toFinset
    ∧ ((LazyUUIDTaskSet.ofList ["u1", "u2"]).difference
        (LazyUUIDTaskSet.ofList ["u2", "u3"]).asOperand).1.uuids
      = ["u1"].toFinset
    ∧ ((LazyUUIDTaskSet.ofList ["u1", "u2"]).symmetric_difference
        (LazyUUIDTaskSet.ofList ["u2", "u3"]).asOperand).1.uuids
      = ["u1", "u3"].toFinset := by
  have h := claim_C5 (LazyUUIDTaskSet.ofList ["u1", "u2"])
    (LazyUUIDTaskSet.ofList ["u2", "u3"])
  refine ⟨?_, ?_, ?_, ?_⟩
  · rw [h.1]; decide
  · rw [h.2.1]; decide
  · rw [h.2.2.1]; decide
  · rw [h.2.2.2]; decide

/-- C6: the reversed subtraction `other - self` yields the identifiers
extracted from `other` minus the set's identifiers (not the other way
round), with no backend call: membership in the result is membership in
`other`'s identifiers together with absence from the set's. -/
theorem claim_C6 (s : LazyUUIDTaskSet) (other : List RecordLike) :
    (s.rsub other).1.uuids = idsOf other \ s.uuids
    ∧ (s.rsub other).2 = []
    ∧ ∀ u : String,
        u ∈ (s.rsub other).1.uuids ↔ u ∈ idsOf other ∧ u ∉ s.uuids :=
  ⟨rfl, rfl, fun _ => Finset.mem_sdiff⟩

/-- C6 witness: `[u2, u3] - {u1, u2}` as a reversed subtraction gives
`{u3}` — and not `{u1}`, which the unreversed order would give. -/
theorem claim_C6_witness :
    ((LazyUUIDTaskSet.ofList ["u1", "u2"]).rsub
        [⟨"u2"⟩, ⟨"u3"⟩]).1.uuids = ["u3"].toFinset := by
  have h := (claim_C6 (LazyUUIDTaskSet.ofList ["u1", "u2"])
    [⟨"u2"⟩, ⟨"u3"⟩]).1
  rw [h]; decide

/-- C7: between two `LazyUUIDTask` references, equality evaluates to
the comparison of the two stored uuids alone — whatever the two
contents (lazy or materialized) — and for equal uuids the references
are equal with equal hashes under any host hash function. -/
theorem claim_C7 (store : Store) (h : String → Nat) (a b : LazyUUIDTask) :
    a.eqObj (b.asObj store) = Except.ok (a.uuid == b.uuid)
    ∧ (a.uuid = b.uuid →
        a.eqObj (b.asObj store) = Except.ok true
        ∧ a.hashU h = b.hashU h) := by
  have key : a.eqObj (b.asObj store) = Except.ok (a.uuid == b.uuid) := by
    simp [LazyUUIDTask.eqObj, LazyUUIDTask.asObj, LazyUUIDTask.getitem]
  refine ⟨key, fun hab => ⟨?_, ?_⟩⟩
  · simp [key, hab]
  · simp [LazyUUIDTask.hashU, hab]

/-- C7 witness: a lazy and a materialized reference to `u1` compare
equal and hash alike (hash function: string length). -/
theorem claim_C7_witness :
    LazyUUIDTask.eqObj ⟨"u1", none⟩
        (LazyUUIDTask.asObj exStore ⟨"u1", some exRecord⟩) = Except.ok true
    ∧ LazyUUIDTask.hashU String.length ⟨"u1", none⟩
      = LazyUUIDTask.hashU String.length ⟨"u1", some exRecord⟩ :=
  (claim_C7 exStore String.length ⟨"u1", none⟩ ⟨"u1", some exRecord⟩).2 rfl

/-- C8: item lookup of `uuid` on any `LazyUUIDTask` — lazy or already
materialized — returns the stored identifier, leaves the task unchanged
and performs zero backend calls. -/
theorem claim_C8 (store : Store) (t : LazyUUIDTask) :
    t.getitem store "uuid" = (Except.ok t.uuid, t, []) := by
  simp [LazyUUIDTask.getitem]

/-- C8 witness: both the lazy and the materialized reference to `u1`
answer the `uuid` lookup from the identifier with no backend call. -/
theorem claim_C8_witness :
    LazyUUIDTask.getitem exStore ⟨"u1", none⟩ "uuid"
      = (Except.ok "u1", ⟨"u1", none⟩, [])
    ∧ LazyUUIDTask.getitem exStore ⟨"u1", some exRecord⟩ "uuid"
      = (Except.ok "u1", ⟨"u1", some exRecord⟩, []) :=
  ⟨claim_C8 exStore ⟨"u1", none⟩, claim_C8 exStore ⟨"u1", some exRecord⟩⟩

/-- C9: on a lazy set, `remove` of an absent identifier fails
(`NotFound`) leaving the identifier set unchanged, `remove` of a
present identifier deletes exactly it, `pop` of an empty set fails
(`EmptyCollection`) leaving it unchanged, and `pop` of a nonempty set
removes and returns one of its identifiers — all with no backend
call. -/
theorem claim_C9 (s : LazyUUIDTaskSet) (t : RecordLike) :
    (t.uuid ∉ s.uuids → s.remove t = (s, some PyErr.notFound, []))
    ∧ (t.uuid ∈ s.uuids →
        s.remove t = (⟨s.uuids.erase t.uuid⟩, none, []))
    ∧ (s.uuids = ∅ → s.pop = (none, s, some PyErr.emptyCollection, []))
    ∧ (s.uuids ≠ ∅ →
        ∃ u ∈ s.uuids, s.pop = (some u, ⟨s.uuids.erase u⟩, none, [])) := by
  refine ⟨fun h => ?_, fun h => ?_, fun h => ?_, fun h => ?_⟩
  · simp [LazyUUIDTaskSet.remove, h]
  · simp [LazyUUIDTaskSet.remove, h]
  · have hne : ¬ s.uuids.Nonempty := by simp [h]
    simp [LazyUUIDTaskSet.pop, hne]
  · have hne : s.uuids.Nonempty := Finset.nonempty_iff_ne_empty.mpr h
    exact ⟨s.uuids.min' hne, s.uuids.min'_mem hne,
      by simp [LazyUUIDTaskSet.pop, hne]⟩

/-- C9 witness: on `{u1}`, removing `u2` fails with `NotFound` and
leaves the set as it was, removing `u1` empties it, popping the empty
set fails with `EmptyCollection`, and popping `{u1}` yields an element
of `{u1}` — all without backend calls. -/
theorem claim_C9_witness :
    (LazyUUIDTaskSet.ofList ["u1"]).remove ⟨"u2"⟩
      = (LazyUUIDTaskSet.ofList ["u1"], some PyErr.notFound, [])
    ∧ (LazyUUIDTaskSet.ofList ["u1"]).remove ⟨"u1"⟩
      = (⟨(LazyUUIDTaskSet.ofList ["u1"]).uuids.erase "u1"⟩, none, [])
    ∧ (LazyUUIDTaskSet.ofList []).pop
      = (none, LazyUUIDTaskSet.ofList [], some PyErr.emptyCollection, [])
    ∧ ∃ u ∈ (LazyUUIDTaskSet.ofList ["u1"]).uuids,
        (LazyUUIDTaskSet.ofList ["u1"]).pop
          = (some u, ⟨(LazyUUIDTaskSet.ofList ["u1"]).uuids.erase u⟩, none, []) :=
  ⟨(claim_C9 (LazyUUIDTaskSet.ofList ["u1"]) ⟨"u2"⟩).1 (by decide),
   (claim_C9 (LazyUUIDTaskSet.ofList ["u1"]) ⟨"u1"⟩).2.1 (by decide),
   (claim_C9 (LazyUUIDTaskSet.ofList []) ⟨"u1"⟩).2.2.1 (by decide),
   (claim_C9 (LazyUUIDTaskSet.ofList ["u1"]) ⟨"u1"⟩).2.2.2 (by decide)⟩

/-- C10: constructing a `LazyUUIDTaskSet` from any list of identifiers
deduplicates: its size is the number of distinct identifiers of the
input, an operand is contained exactly when its identifier occurs in
the input, and iteration yields tasks whose uuids are exactly the
distinct input identifiers, each once. -/
theorem claim_C10 (l : List String) :
    (LazyUUIDTaskSet.ofList l).len = l.dedup.length
    ∧ (∀ t : RecordLike,
        (LazyUUIDTaskSet.ofList l).containsTask t = true ↔ t.uuid ∈ l)
    ∧ ((LazyUUIDTaskSet.ofList l).iter.map LazyUUIDTask.uuid).Nodup
    ∧ (∀ u : String,
        u ∈ (LazyUUIDTaskSet.ofList l).iter.map LazyUUIDTask.uuid ↔ u ∈ l) := by
  have hmap : (LazyUUIDTaskSet.ofList l).iter.map LazyUUIDTask.uuid
      = (LazyUUIDTaskSet.ofList l).uuids.sort (fun a b => a ≤ b) := by
    unfold LazyUUIDTaskSet.iter
    rw [List.map_map]
    have h : (LazyUUIDTask.uuid ∘ LazyUUIDTask.new) = id := rfl
    rw [h, List.map_id]
  refine ⟨?_, fun t => ?_, ?_, fun u => ?_⟩
  · simp [LazyUUIDTaskSet.len, LazyUUIDTaskSet.ofList, List.card_toFinset]
  · simp [LazyUUIDTaskSet.containsTask, LazyUUIDTaskSet.ofList]
  · rw [hmap]; exact Finset.sort_nodup _ _
  · rw [hmap]
    simp [Finset.mem_sort, LazyUUIDTaskSet.ofList]

/-- C10 witness: the set built from `[u1, u1, u2]` has size 2, and
contains an operand with identifier `u1`. -/
theorem claim_C10_witness :
    (LazyUUIDTaskSet.ofList ["u1", "u1", "u2"]).len = 2
    ∧ (LazyUUIDTaskSet.ofList ["u1", "u1", "u2"]).containsTask ⟨"u1"⟩ = true := by
  have h := claim_C10 ["u1", "u1", "u2"]
  exact ⟨by rw [h.1]; rfl, (h.2.1 ⟨"u1"⟩).mpr (by decide)⟩

end Tasklib
